import Mathlib

/-!
# Verification of `src/adapters/adapter.ts` (remotedebug-ios-webkit-adapter)

Shallow embedding of the `Adapter` class.  JavaScript values that matter to
the code are modelled explicitly:

* an optional / possibly-`undefined` string field is `Option String`
  (`none` = the JS value `undefined` / an absent property);
* JS truthiness of strings (`""` is falsy) and of optional values is
  modelled by dedicated helpers;
* a `Map` is an association list whose `set` replaces the first matching
  key (JS `Map.set` semantics); the key type is `Option String` because
  the JS value `undefined` is a legal `Map` key;
* OS process handles and WebSocket client connections are opaque and
  modelled as natural numbers; freshness of a spawned process is modelled
  by a `nextPid` counter and the signals sent by a `killed` log;
* the external `Target` session collaborator (its source is not part of
  the repository core) is modelled from the spec's collaborator interface.
-/

namespace RemoteDebug

/-- JS string truthiness: `undefined` and `""` are falsy. -/
def jsTruthyStr : Option String → Bool
  | none => false
  | some s => s ≠ ""

/-- JS `a || b` on string-valued expressions: `a` when truthy, else `b`. -/
def jsOrStr (a b : Option String) : Option String :=
  if jsTruthyStr a then a else b

/-- JS template-literal interpolation of a possibly-`undefined` string:
`undefined` prints as the text `"undefined"`. -/
def jsInterp : Option String → String
  | none => "undefined"
  | some s => s

/-- JS `x || d` for an optional numeric option (`0` is falsy). -/
def jsOrNat : Option Nat → Nat → Nat
  | none, d => d
  | some n, d => if n = 0 then d else n

/-- JS `x || d` for an optional string option (`""` is falsy). -/
def jsOrStrDefault (a : Option String) (d : String) : String :=
  match jsOrStr a (some d) with
  | some s => s
  | none => d

/-- `String.prototype.indexOf(c, start)`: the first index `≥ start`
holding `c`, scanning the character list; `i` is the index of the list
head.  `none` models the JS result `-1`. -/
def findCharFrom : List Char → Char → Nat → Nat → Option Nat
  | [], _, _, _ => none
  | x :: xs, c, start, i =>
    if start ≤ i ∧ x = c then some i else findCharFrom xs c start (i + 1)

/-- `String.prototype.replace(c, r)` with single-character pattern:
replaces only the first occurrence (JS `replace` with a string pattern). -/
def replaceFirstChar : List Char → Char → Char → List Char
  | [], _, _ => []
  | x :: xs, c, r => if x = c then r :: xs else x :: replaceFirstChar xs c r

/-- Does `l` start with `p`? -/
def startsWithChars : List Char → List Char → Bool
  | [], _ => true
  | _ :: _, [] => false
  | p :: ps, x :: xs => p = x && startsWithChars ps xs

/-- `String.prototype.replace(pat, '')`: removes the first occurrence of
`pat` (used by the source for `proxyUrl.replace('ws://', '')`). -/
def dropFirstOcc (pat : List Char) : List Char → List Char
  | [] => []
  | x :: xs =>
    if startsWithChars pat (x :: xs) then (x :: xs).drop pat.length
    else x :: dropFirstOcc pat xs

/-- `proxyUrl.replace('ws://', '')`. -/
def stripWsScheme (s : String) : String :=
  ⟨dropFirstOcc "ws://".toList s.toList⟩

/-! ## JS `Map` model (association list, `set` overwrites) -/

section JsMap

variable {α β : Type} [DecidableEq α]

/-- `Map.get`: value of the first entry with the given key. -/
def mapGet : List (α × β) → α → Option β
  | [], _ => none
  | (k', v) :: rest, k => if k' = k then some v else mapGet rest k

/-- `Map.set`: replace the first entry with the given key, else append. -/
def mapSet : List (α × β) → α → β → List (α × β)
  | [], k, v => [(k, v)]
  | (k', v') :: rest, k, v =>
    if k' = k then (k, v) :: rest else (k', v') :: mapSet rest k v

/-- Number of entries stored under a key (a real `Map` always has `≤ 1`). -/
def countKey : List (α × β) → α → Nat
  | [], _ => 0
  | (k', _) :: rest, k => (if k' = k then 1 else 0) + countKey rest k

end JsMap

/-! ## Data model -/

/-- The `ITarget` descriptor: the fields `adapter.ts` reads or writes.
Every field is optional because raw descriptors come from external JSON. -/
structure ITarget where
  id : Option String := none
  appId : Option String := none
  type : Option String := none
  adapterType : Option String := none
  metadata : Option String := none
  webSocketDebuggerUrl : Option String := none
  devtoolsFrontendUrl : Option String := none
  deriving DecidableEq, Repr

/-- `IAdapterOptions` as passed to the constructor. -/
structure IAdapterOptions where
  pollingInterval : Option Nat := none
  baseUrl : Option String := none
  path : Option String := none
  port : Option Nat := none
  proxyExePath : Option String := none
  proxyExeArgs : Option (List String) := none
  deriving DecidableEq, Repr

/-- Modelled from the spec: the external Target Session collaborator
(§6): `connectTo(realWebSocketUrl, clientConnection)`,
`updateClient(clientConnection)`, `forward(message)`.  `serial` gives the
JS object identity of the session; `forwarded` logs delegated messages. -/
structure Target where
  serial : Nat
  targetId : String
  data : ITarget
  clientWs : Option Nat := none
  realUrl : Option String := none
  forwarded : List String := []
  deriving DecidableEq, Repr

/-- Modelled from the spec: `updateClient(clientConnection)` rebinds the
session's client-side connection, replacing (not stacking) the prior
client. -/
def Target.updateClient (t : Target) (wsFrom : Nat) : Target :=
  { t with clientWs := some wsFrom }

/-- Modelled from the spec: `connectTo(realWebSocketUrl, clientConnection)`
establishes the runtime-side connection to the given URL and binds the
client-side connection. -/
def Target.connectToUrl (t : Target) (url : Option String) (wsFrom : Nat) : Target :=
  { t with realUrl := url, clientWs := some wsFrom }

/-- Modelled from the spec: `forward(message)` delegates the opaque
message to the session unchanged. -/
def Target.forward (t : Target) (message : String) : Target :=
  { t with forwarded := t.forwarded ++ [message] }

/-- The `Adapter` class state.  `nextPid`, `killed` and `nextSerial` are
model bookkeeping: fresh OS process handles, the SIGTERM log, and fresh
JS object identities for created `Target` sessions. -/
structure Adapter where
  _id : String
  _adapterType : String
  _proxyUrl : String
  _options : IAdapterOptions
  _url : String
  _proxyProc : Option Nat := none
  _targetMap : List (Option String × Target) := []
  _targetIdToTargetDataMap : List (Option String × ITarget) := []
  nextPid : Nat := 0
  killed : List Nat := []
  nextSerial : Nat := 0
  deriving DecidableEq, Repr

/-- The `adapterType` computation from the constructor:
`indexOf('/', 1)`, then either `'_' + id.substr(1, index - 1)` or
`id.replace('/', '_')`. -/
def deriveAdapterType (id : String) : String :=
  match findCharFrom id.toList '/' 1 0 with
  | some index => "_" ++ ⟨(id.toList.drop 1).take (index - 1)⟩
  | none => ⟨replaceFirstChar id.toList '/' '_'⟩

/-- The `Adapter` constructor: stores id and socket, applies option
defaults, builds the discovery URL and derives the adapter type. -/
def mkAdapter (id : String) (socket : String) (options : IAdapterOptions) : Adapter :=
  let pollingInterval := jsOrNat options.pollingInterval 3000
  let baseUrl := jsOrStrDefault options.baseUrl "http://127.0.0.1"
  let path := jsOrStrDefault options.path "/json"
  let port := jsOrNat options.port 9222
  let resolved : IAdapterOptions :=
    { options with
      pollingInterval := some pollingInterval,
      baseUrl := some baseUrl, path := some path, port := some port }
  { _id := id
    _proxyUrl := socket
    _options := resolved
    _url := baseUrl ++ ":" ++ toString port ++ path
    _adapterType := deriveAdapterType id }

/-! ## Operations -/

/-- `setTargetInfo(t, metadata)` translated line by line; the JSON deep
copy `JSON.parse(JSON.stringify(t))` is the identity on the modelled
descriptor (absent and `undefined` fields coincide as `none`). -/
def jsonRoundTrip (t : ITarget) : ITarget := t

/-- `setTargetInfo`: normalize the id (`t.id || t.appId`), stamp the
adapter type, default `type` to `'page'`, attach metadata, snapshot the
pre-rewrite descriptor into `_targetIdToTargetDataMap`, then overwrite
`webSocketDebuggerUrl` with the proxy address and build
`devtoolsFrontendUrl`. -/
def Adapter.setTargetInfo (a : Adapter) (t : ITarget) (metadata : Option String) :
    Adapter × ITarget :=
  let id := jsOrStr t.id t.appId
  let t := { t with id := id }
  let t := { t with adapterType := some a._adapterType }
  let t := { t with type := jsOrStr t.type (some "page") }
  let t := { t with metadata := metadata }
  let targetData := jsonRoundTrip t
  let dataMap := mapSet a._targetIdToTargetDataMap t.id targetData
  let a := { a with _targetIdToTargetDataMap := dataMap }
  let proxiedUrl := a._proxyUrl ++ a._id ++ "/" ++ jsInterp t.id
  let t := { t with webSocketDebuggerUrl := some proxiedUrl }
  let wsUrl := stripWsScheme a._proxyUrl ++ a._id ++ "/" ++ jsInterp t.id
  let frontend := "https://chrome-devtools-frontend.appspot.com/serve_file/@60cd6e859b9f557d2312f5bf532f6aec5f284980/inspector.html?experiments=true&ws=" ++ wsUrl
  let t := { t with devtoolsFrontendUrl := some frontend }
  (a, t)

/-- The body the discovery HTTP callback receives: either text that
`JSON.parse` rejects, or a parsed JSON array of raw descriptors. -/
inductive Body where
  | notJson : Body
  | jsonArray : List ITarget → Body
  deriving DecidableEq, Repr

/-- Outcome of the `request(url, cb)` call: the callback runs with a
transport `error`, or with a response carrying a status code and a body.
The `request` library reports only transport failures through `error`;
a non-2xx HTTP status arrives as a normal response. -/
inductive RequestResult where
  | transportError : RequestResult
  | response : Nat → Body → RequestResult
  deriving DecidableEq, Repr

/-- `getTargets(metadata)`.  The result `some (a, ts)` means the returned
promise resolves with `ts` leaving the adapter in state `a`; `none` means
the promise never settles: `JSON.parse` throws inside the `request`
callback, after the promise executor has already returned, so neither
`resolve` nor `reject` ever runs.  The executor never calls `reject`, so
rejection is unrepresentable. -/
def Adapter.getTargets (a : Adapter) (r : RequestResult) (metadata : Option String) :
    Option (Adapter × List ITarget) :=
  match r with
  | .transportError => some (a, [])
  | .response _ body =>
    match body with
    | .notJson => none
    | .jsonArray rawTargets =>
      some (rawTargets.foldl
        (fun (acc : Adapter × List ITarget) t =>
          let r := acc.1.setTargetInfo t metadata
          (r.1, acc.2 ++ [r.2]))
        (a, []))

/-- `connectTo(targetId, wsFrom)`: not-found sentinel `none` when no
endpoint record exists; rebind and return the existing session when one
is bound; otherwise create a session, connect it to the recorded real
WebSocket URL, store it and return it.  (The `socketClosed` resubscription
is event plumbing with no effect on the modelled state.) -/
def Adapter.connectTo (a : Adapter) (targetId : String) (wsFrom : Nat) :
    Adapter × Option Target :=
  match mapGet a._targetIdToTargetDataMap (some targetId) with
  | none => (a, none)
  | some targetData =>
    match mapGet a._targetMap (some targetId) with
    | some target =>
      let updated := target.updateClient wsFrom
      ({ a with _targetMap := mapSet a._targetMap (some targetId) updated },
       some updated)
    | none =>
      let target : Target := { serial := a.nextSerial, targetId := targetId,
                               data := targetData }
      let connected := target.connectToUrl targetData.webSocketDebuggerUrl wsFrom
      ({ a with _targetMap := mapSet a._targetMap (some targetId) connected,
                nextSerial := a.nextSerial + 1 },
       some connected)

/-- `forwardTo(targetId, message)`: silent no-op without a binding, else
delegate to the bound session's `forward` (which mutates the stored
session object in place). -/
def Adapter.forwardTo (a : Adapter) (targetId : String) (message : String) : Adapter :=
  match mapGet a._targetMap (some targetId) with
  | none => a
  | some target =>
    { a with _targetMap := mapSet a._targetMap (some targetId) (target.forward message) }

/-- `spawnProcess(path, args)`: spawn only when no process is tracked
(`if (!this._proxyProc)`), then return the tracked handle. -/
def Adapter.spawnProcess (a : Adapter) (path : String) (args : List String) :
    Adapter × Nat :=
  match a._proxyProc with
  | none => ({ a with _proxyProc := some a.nextPid, nextPid := a.nextPid + 1 },
             a.nextPid)
  | some p => (a, p)

/-- `refereshProcess(process, path, args)`: `process.kill('SIGTERM')`
followed by `spawnProcess(path, args)`.  The tracked handle is never
cleared before the spawn attempt. -/
def Adapter.refereshProcess (a : Adapter) (process : Nat) (path : String)
    (args : List String) : Adapter :=
  let a := { a with killed := a.killed ++ [process] }
  (a.spawnProcess path args).1

/-- `forceRefresh()`: guard on a tracked process, a truthy
`proxyExePath` and a non-`undefined` `proxyExeArgs` (a JS array is truthy
even when empty), then call `refereshProcess`. -/
def Adapter.forceRefresh (a : Adapter) : Adapter :=
  match a._proxyProc, a._options.proxyExePath, a._options.proxyExeArgs with
  | some p, some path, some args =>
    if path ≠ "" then a.refereshProcess p path args else a
  | _, _, _ => a

/-! ## Harness definitions used only to state properties -/

/-- Run a sequence of `connectTo` calls for one target id, one call per
client connection in the list, collecting the returned sessions. -/
def connectSeq (a : Adapter) (targetId : String) : List Nat → Adapter × List (Option Target)
  | [] => (a, [])
  | ws :: rest =>
    let r := a.connectTo targetId ws
    let tail := connectSeq r.1 targetId rest
    (tail.1, r.2 :: tail.2)

/-- The characters before the first `'/'` (the whole list when none). -/
def takeUntilSlash : List Char → List Char
  | [] => []
  | c :: cs => if c = '/' then [] else c :: takeUntilSlash cs

/-- Modelled from the spec (amended §4.4 wording): for a path-like id
beginning with `/`, the adapter type is `_` followed by the segment after
the leading slash up to the next slash (the segment between the first and
second `/` when a second slash exists; otherwise the id with its leading
`/` replaced by `_`). -/
def specAdapterType (id : String) : String :=
  match id.toList with
  | c :: rest => if c = '/' then "_" ++ ⟨takeUntilSlash rest⟩ else id
  | [] => id

/-- The session object `connectTo` creates for target `tid` from the Real
Endpoint Record `d` (`new Target(targetId, targetData)`), before the
runtime-side connect. -/
def newSession (a : Adapter) (tid : String) (d : ITarget) : Target :=
  { serial := a.nextSerial, targetId := tid, data := d }

/-- The adapter knows target `tid` and holds exactly the session whose
identity (JS object identity, modelled by `serial`) is `n` for it. -/
def SameSession (a : Adapter) (tid : String) (n : Nat) : Prop :=
  (mapGet a._targetIdToTargetDataMap (some tid)).isSome = true
  ∧ ∃ s, mapGet a._targetMap (some tid) = some s ∧ s.serial = n

/-- Index of the first occurrence of `c`, if any. -/
def firstIdx (c : Char) : List Char → Option Nat
  | [] => none
  | x :: xs => if x = c then some 0 else (firstIdx c xs).map (· + 1)

/-! ## Concrete fixtures for witnesses and counterexamples -/

/-- A freshly constructed adapter with default options. -/
def emptyAdapter : Adapter := mkAdapter "/ios" "ws://localhost:9000/" {}

/-- A raw descriptor as the iOS runtime's `/json` endpoint would list. -/
def rawPage : ITarget :=
  { id := some "page-1",
    webSocketDebuggerUrl := some "ws://127.0.0.1:9222/devtools/page/1" }

/-- `emptyAdapter` after one successful discovery listing `rawPage`. -/
def discoveredAdapter : Adapter :=
  match emptyAdapter.getTargets (RequestResult.response 200 (Body.jsonArray [rawPage])) none with
  | some r => r.1
  | none => emptyAdapter

/-- `discoveredAdapter` after `connectTo "page-1"` with client `7`. -/
def boundAdapter : Adapter := (discoveredAdapter.connectTo "page-1" 7).1

/-- The Real Endpoint Record `discoveredAdapter` stores for `"page-1"`. -/
def storedRecord : ITarget :=
  { id := some "page-1", appId := none, type := some "page",
    adapterType := some "_ios", metadata := none,
    webSocketDebuggerUrl := some "ws://127.0.0.1:9222/devtools/page/1",
    devtoolsFrontendUrl := none }

/-- The Target Session `boundAdapter` holds for `"page-1"`. -/
def boundSession : Target :=
  { serial := 0, targetId := "page-1", data := storedRecord,
    clientWs := some 7, realUrl := some "ws://127.0.0.1:9222/devtools/page/1",
    forwarded := [] }

/-- Options naming both a subprocess path and its argument list. -/
def c1options : IAdapterOptions :=
  { proxyExePath := some "/usr/bin/ios-webkit-debug-proxy",
    proxyExeArgs := some ["--no-frontend", "--config=null:9221"] }

/-- An adapter configured with `c1options` that tracks live process `0`
(as `start()` would leave it after spawning the proxy). -/
def c1adapter : Adapter :=
  ((mkAdapter "/ios" "ws://localhost:9000/" c1options).spawnProcess
    "/usr/bin/ios-webkit-debug-proxy" ["--no-frontend", "--config=null:9221"]).1

/-- A raw descriptor with neither `id` nor `appId`. -/
def rawNoId1 : ITarget :=
  { type := some "app",
    webSocketDebuggerUrl := some "ws://127.0.0.1:9222/devtools/app/1" }

/-- A second raw descriptor with neither `id` nor `appId`. -/
def rawNoId2 : ITarget :=
  { webSocketDebuggerUrl := some "ws://127.0.0.1:9222/devtools/app/2" }

/-! ## Lemmas about the JS `Map` model -/

section MapLemmas

variable {α β : Type} [DecidableEq α]

theorem mapGet_mapSet_self (m : List (α × β)) (k : α) (v : β) :
    mapGet (mapSet m k v) k = some v := by
  induction m with
  | nil => simp [mapGet, mapSet]
  | cons p rest ih =>
    obtain ⟨k', v'⟩ := p
    by_cases h : k' = k
    · simp [mapGet, mapSet, h]
    · simp [mapGet, mapSet, h, ih]

theorem countKey_mapSet (m : List (α × β)) (k : α) (v : β) :
    countKey (mapSet m k v) k = if countKey m k = 0 then 1 else countKey m k := by
  induction m with
  | nil => simp [countKey, mapSet]
  | cons p rest ih =>
    obtain ⟨k', v'⟩ := p
    by_cases h : k' = k
    · simp [countKey, mapSet, h]
    · simp [countKey, mapSet, h, ih]

theorem countKey_mapSet_le_one (m : List (α × β)) (k : α) (v : β)
    (h : countKey m k ≤ 1) : countKey (mapSet m k v) k ≤ 1 := by
  rw [countKey_mapSet]
  split <;> omega

end MapLemmas

/-! ## Claim theorems -/

/-- C5: on a transport error the promise returned by `getTargets`
resolves, within the same call, to the empty sequence, and the adapter
state — in particular the Real Endpoint Record table and the binding
table — is unchanged.  (The executor never calls `reject`, so rejection
cannot occur at all.) -/
theorem C5_transport_failure_isolation (a : Adapter) (metadata : Option String) :
    a.getTargets RequestResult.transportError metadata = some (a, []) := rfl

/-- C9: when the discovery response arrives without a transport error but
its body is not valid JSON, `JSON.parse` throws inside the `request`
callback — after the promise executor has returned — so the promise
neither resolves nor rejects (the `none` outcome of the model). -/
theorem C9_invalid_body_never_settles (a : Adapter) (statusCode : Nat)
    (metadata : Option String) :
    a.getTargets (RequestResult.response statusCode Body.notJson) metadata = none := rfl

/-- C6 counterexample: a 404 response whose body is a JSON array holding
one valid descriptor is **not** treated as a transport failure: the call
returns one rewritten target (not the empty set) and stores a Real
Endpoint Record that was absent before. -/
theorem C6_counterexample :
    (emptyAdapter.getTargets (RequestResult.response 404 (Body.jsonArray [rawPage])) none).map
        (fun r => (r.2.length, (mapGet r.1._targetIdToTargetDataMap (some "page-1")).isSome))
      = some (1, true)
    ∧ mapGet emptyAdapter._targetIdToTargetDataMap (some "page-1") = none :=
  ⟨rfl, rfl⟩

/-- C6 amended: the HTTP status code is never inspected — a response with
any status code is processed exactly like one with any other status code
and the same body; only a transport failure yields the empty result set. -/
theorem C6_amended_status_code_ignored (a : Adapter) (code code' : Nat) (body : Body)
    (metadata : Option String) :
    a.getTargets (RequestResult.response code body) metadata
      = a.getTargets (RequestResult.response code' body) metadata
    ∧ a.getTargets RequestResult.transportError metadata = some (a, []) :=
  ⟨rfl, rfl⟩

/-- C4: `connectTo` for a target id with no Real Endpoint Record returns
the not-found sentinel and leaves the entire adapter state — binding
table, endpoint-record table and subprocess handle — unchanged. -/
theorem C4_connectTo_unknown_target (a : Adapter) (targetId : String) (wsFrom : Nat)
    (h : mapGet a._targetIdToTargetDataMap (some targetId) = none) :
    a.connectTo targetId wsFrom = (a, none) := by
  simp [Adapter.connectTo, h]

theorem C4_witness :
    mapGet emptyAdapter._targetIdToTargetDataMap (some "ghost-id") = none
    ∧ emptyAdapter.connectTo "ghost-id" 1 = (emptyAdapter, none) :=
  ⟨rfl, C4_connectTo_unknown_target emptyAdapter "ghost-id" 1 rfl⟩

/-- C1 (the code contradicts the spec's restart semantics): for an
adapter tracking live process `0` and configured with both path and
arguments, `forceRefresh` sends the termination signal but spawns
nothing: `refereshProcess` never clears `_proxyProc`, so the
`if (!this._proxyProc)` guard inside `spawnProcess` fails and the handle
of the killed process remains the tracked handle. -/
theorem C1_forceRefresh_spawns_nothing :
    c1adapter._proxyProc = some 0
    ∧ c1adapter.forceRefresh.killed = [0]
    ∧ c1adapter.forceRefresh._proxyProc = some 0
    ∧ c1adapter.forceRefresh.nextPid = c1adapter.nextPid :=
  ⟨rfl, rfl, rfl, rfl⟩

/-- C8: `forwardTo` with no binding for the id returns leaving the state
untouched (a silent no-op); with a binding it delegates the message
unchanged to the bound session's `forward`. -/
theorem C8_forwardTo_behavior (a : Adapter) (targetId message : String) :
    (mapGet a._targetMap (some targetId) = none → a.forwardTo targetId message = a)
    ∧ (∀ s, mapGet a._targetMap (some targetId) = some s →
        a.forwardTo targetId message
          = { a with _targetMap := mapSet a._targetMap (some targetId) (s.forward message) }
        ∧ (s.forward message).forwarded = s.forwarded ++ [message]) := by
  constructor
  · intro h
    simp [Adapter.forwardTo, h]
  · intro s h
    exact ⟨by simp [Adapter.forwardTo, h], rfl⟩

theorem C8_witness :
    (mapGet emptyAdapter._targetMap (some "ghost-id") = none
      ∧ emptyAdapter.forwardTo "ghost-id" "msg" = emptyAdapter)
    ∧ (mapGet boundAdapter._targetMap (some "page-1") = some boundSession
      ∧ boundAdapter.forwardTo "page-1" "msg"
          = { boundAdapter with
              _targetMap := mapSet boundAdapter._targetMap (some "page-1") (boundSession.forward "msg") }
      ∧ (boundSession.forward "msg").forwarded = boundSession.forwarded ++ ["msg"]) :=
  ⟨⟨rfl, (C8_forwardTo_behavior emptyAdapter "ghost-id" "msg").1 rfl⟩,
   ⟨rfl, (C8_forwardTo_behavior boundAdapter "page-1" "msg").2 boundSession rfl⟩⟩

/-- C2: for every raw descriptor whose normalized id (`t.id || t.appId`)
is an actual string, the Real Endpoint Record stored under that id equals
the descriptor exactly as it stood immediately before URL rewriting —
after id normalization, adapterType stamping, `type` defaulting to
`"page"` and metadata attachment, with the original endpoint URLs still
in place — and the returned descriptor's `webSocketDebuggerUrl` is
exactly the relay address ++ adapter id ++ "/" ++ target id. -/
theorem C2_rewrite_round_trip (a : Adapter) (t : ITarget) (metadata : Option String)
    (i : String) (h : jsOrStr t.id t.appId = some i) :
    mapGet (a.setTargetInfo t metadata).1._targetIdToTargetDataMap (some i)
      = some { t with
               id := some i, adapterType := some a._adapterType,
               type := jsOrStr t.type (some "page"), metadata := metadata }
    ∧ (a.setTargetInfo t metadata).2.webSocketDebuggerUrl
      = some (a._proxyUrl ++ a._id ++ "/" ++ i) := by
  unfold Adapter.setTargetInfo
  simp only [h, jsonRoundTrip, jsInterp]
  exact ⟨mapGet_mapSet_self _ _ _, by trivial⟩

theorem C2_witness :
    jsOrStr rawPage.id rawPage.appId = some "page-1"
    ∧ (mapGet (emptyAdapter.setTargetInfo rawPage none).1._targetIdToTargetDataMap (some "page-1")
        = some { rawPage with
                 id := some "page-1", adapterType := some emptyAdapter._adapterType,
                 type := jsOrStr rawPage.type (some "page"),
                 metadata := none }
      ∧ (emptyAdapter.setTargetInfo rawPage none).2.webSocketDebuggerUrl
        = some (emptyAdapter._proxyUrl ++ emptyAdapter._id ++ "/" ++ "page-1")) :=
  ⟨rfl, C2_rewrite_round_trip emptyAdapter rawPage none "page-1" rfl⟩

/-- C10: a raw descriptor carrying neither `id` nor `appId` is neither
skipped nor an error: `setTargetInfo` assigns it the `undefined` id,
stores a Real Endpoint Record under the `undefined` key (each such
descriptor overwriting the previous one), rewrites its
`webSocketDebuggerUrl` so that it embeds the text `"undefined"`, and
`getTargets` still returns the entry. -/
theorem C10_undefined_identity (a : Adapter) (t u : ITarget) (metadata : Option String)
    (ht1 : t.id = none) (ht2 : t.appId = none)
    (hu1 : u.id = none) (hu2 : u.appId = none) :
    (a.setTargetInfo t metadata).2.id = none
    ∧ mapGet (a.setTargetInfo t metadata).1._targetIdToTargetDataMap none
        = some { t with
                 id := none, adapterType := some a._adapterType,
                 type := jsOrStr t.type (some "page"), metadata := metadata }
    ∧ (a.setTargetInfo t metadata).2.webSocketDebuggerUrl
        = some (a._proxyUrl ++ a._id ++ "/" ++ "undefined")
    ∧ mapGet ((a.setTargetInfo t metadata).1.setTargetInfo u metadata).1._targetIdToTargetDataMap none
        = some { u with
                 id := none, adapterType := some a._adapterType,
                 type := jsOrStr u.type (some "page"), metadata := metadata }
    ∧ (a.getTargets (RequestResult.response 200 (Body.jsonArray [t])) metadata).map
        (fun r => r.2.length) = some 1 := by
  unfold Adapter.setTargetInfo Adapter.getTargets
  simp only [ht1, ht2, hu1, hu2, jsOrStr, jsTruthyStr, jsonRoundTrip, jsInterp]
  refine ⟨rfl, ?_, rfl, ?_, rfl⟩
  · exact mapGet_mapSet_self _ _ _
  · exact mapGet_mapSet_self _ _ _

theorem C10_witness :
    (rawNoId1.id = none ∧ rawNoId1.appId = none
      ∧ rawNoId2.id = none ∧ rawNoId2.appId = none)
    ∧ ((emptyAdapter.setTargetInfo rawNoId1 none).2.id = none
      ∧ mapGet (emptyAdapter.setTargetInfo rawNoId1 none).1._targetIdToTargetDataMap none
          = some { rawNoId1 with
                   id := none, adapterType := some emptyAdapter._adapterType,
                   type := jsOrStr rawNoId1.type (some "page"), metadata := none }
      ∧ (emptyAdapter.setTargetInfo rawNoId1 none).2.webSocketDebuggerUrl
          = some (emptyAdapter._proxyUrl ++ emptyAdapter._id ++ "/" ++ "undefined")
      ∧ mapGet ((emptyAdapter.setTargetInfo rawNoId1 none).1.setTargetInfo rawNoId2 none).1._targetIdToTargetDataMap none
          = some { rawNoId2 with
                   id := none, adapterType := some emptyAdapter._adapterType,
                   type := jsOrStr rawNoId2.type (some "page"), metadata := none }
      ∧ (emptyAdapter.getTargets (RequestResult.response 200 (Body.jsonArray [rawNoId1])) none).map
          (fun r => r.2.length) = some 1) :=
  ⟨⟨rfl, rfl, rfl, rfl⟩,
   C10_undefined_identity emptyAdapter rawNoId1 rawNoId2 none rfl rfl rfl rfl⟩

/-! ## Lemmas about the adapter-type derivation -/

theorem findCharFrom_shift (l : List Char) (c : Char) :
    ∀ i : Nat, findCharFrom l c 1 (i + 1) = (firstIdx c l).map (· + (i + 1)) := by
  induction l with
  | nil => intro i; simp [findCharFrom, firstIdx]
  | cons x xs ih =>
    intro i
    by_cases h : x = c
    · simp [findCharFrom, firstIdx, h]
    · simp only [findCharFrom, firstIdx]
      rw [if_neg (fun hc => h hc.2), if_neg h, ih (i + 1)]
      cases hfi : firstIdx c xs with
      | none => simp
      | some p => simp; omega

theorem takeUntilSlash_take (l : List Char) :
    ∀ p, firstIdx '/' l = some p → takeUntilSlash l = l.take p := by
  induction l with
  | nil => intro p hp; simp [firstIdx] at hp
  | cons x xs ih =>
    intro p hp
    by_cases h : x = '/'
    · simp [firstIdx, h] at hp
      subst hp
      simp [takeUntilSlash, h]
    · simp [firstIdx, h] at hp
      obtain ⟨q, hq, rfl⟩ := hp
      simp [takeUntilSlash, h, ih q hq]

theorem takeUntilSlash_all (l : List Char) (h : firstIdx '/' l = none) :
    takeUntilSlash l = l := by
  induction l with
  | nil => rfl
  | cons x xs ih =>
    by_cases hx : x = '/'
    · simp [firstIdx, hx] at h
    · simp [firstIdx, hx] at h
      simp [takeUntilSlash, hx, ih h]

/-- C7 counterexample: for the id `"/headless"` (no second slash) the
constructor derives the adapter type `"_headless"` — the leading slash is
*replaced by* an underscore by `id.replace('/', '_')` — not
`"headless"`, the id with its leading slash stripped, as the claim's
otherwise-branch states. -/
theorem C7_counterexample :
    (mkAdapter "/headless" "ws://localhost:9000/" {})._adapterType = "_headless"
    ∧ (mkAdapter "/headless" "ws://localhost:9000/" {})._adapterType ≠ "headless" :=
  ⟨rfl, by decide⟩

/-- C7 amended: for every path-like id beginning with `/`, the derived
adapter type is `_` followed by the segment between the first and second
`/` when a `/` at index ≥ 1 exists, and otherwise the id with its leading
`/` *replaced by* `_` (not stripped); in particular `/browser/instance1`
derives `_browser` and `/headless` derives `_headless`. -/
theorem C7_amended_derivation (l : List Char) (socket : String) (options : IAdapterOptions) :
    (mkAdapter ⟨'/' :: l⟩ socket options)._adapterType = specAdapterType ⟨'/' :: l⟩
    ∧ (mkAdapter "/browser/instance1" socket options)._adapterType = "_browser"
    ∧ (mkAdapter "/headless" socket options)._adapterType = "_headless" := by
  refine ⟨?_, rfl, rfl⟩
  show deriveAdapterType ⟨'/' :: l⟩ = specAdapterType ⟨'/' :: l⟩
  unfold deriveAdapterType specAdapterType
  have h0 : (String.mk ('/' :: l)).toList = '/' :: l := rfl
  rw [h0]
  have h1 : findCharFrom ('/' :: l) '/' 1 0 = findCharFrom l '/' 1 1 := by
    simp [findCharFrom]
  have h2 : findCharFrom l '/' 1 1 = (firstIdx '/' l).map (· + 1) := by
    simpa using findCharFrom_shift l '/' 0
  rw [h1, h2]
  cases hfi : firstIdx '/' l with
  | none =>
    simp only [replaceFirstChar, takeUntilSlash_all l hfi, if_pos rfl]
    rfl
  | some p =>
    simp [takeUntilSlash_take l p hfi]

/-! ## Lemmas about the C3 binding invariant -/

theorem connectTo_none (a : Adapter) (tid : String) (ws : Nat)
    (h1 : mapGet a._targetIdToTargetDataMap (some tid) = none) :
    a.connectTo tid ws = (a, none) := by
  simp [Adapter.connectTo, h1]

theorem connectTo_existing_eq (a : Adapter) (tid : String) (ws : Nat) (d : ITarget) (s : Target)
    (h1 : mapGet a._targetIdToTargetDataMap (some tid) = some d)
    (h2 : mapGet a._targetMap (some tid) = some s) :
    a.connectTo tid ws
      = ({ a with _targetMap := mapSet a._targetMap (some tid) (s.updateClient ws) },
         some (s.updateClient ws)) := by
  simp [Adapter.connectTo, h1, h2]

theorem connectTo_fresh_eq (a : Adapter) (tid : String) (ws : Nat) (d : ITarget)
    (h1 : mapGet a._targetIdToTargetDataMap (some tid) = some d)
    (h2 : mapGet a._targetMap (some tid) = none) :
    a.connectTo tid ws
      = ({ a with
           _targetMap := mapSet a._targetMap (some tid) ((newSession a tid d).connectToUrl d.webSocketDebuggerUrl ws),
           nextSerial := a.nextSerial + 1 },
         some ((newSession a tid d).connectToUrl d.webSocketDebuggerUrl ws)) := by
  simp [Adapter.connectTo, h1, h2, newSession]

theorem sameSession_step (a : Adapter) (tid : String) (n ws : Nat)
    (h : SameSession a tid n) :
    SameSession (a.connectTo tid ws).1 tid n
    ∧ ∃ s, (a.connectTo tid ws).2 = some s ∧ s.serial = n := by
  obtain ⟨h1, s, h2, h3⟩ := h
  obtain ⟨d, hd⟩ := Option.isSome_iff_exists.mp h1
  rw [connectTo_existing_eq a tid ws d s hd h2]
  refine ⟨⟨?_, s.updateClient ws, mapGet_mapSet_self _ _ _, h3⟩,
          s.updateClient ws, rfl, h3⟩
  simp [hd]

theorem sameSession_init (a : Adapter) (tid : String) (ws : Nat) (s0 : Target)
    (h : (a.connectTo tid ws).2 = some s0) :
    SameSession (a.connectTo tid ws).1 tid s0.serial := by
  cases h1 : mapGet a._targetIdToTargetDataMap (some tid) with
  | none =>
    rw [connectTo_none a tid ws h1] at h
    simp at h
  | some d =>
    cases h2 : mapGet a._targetMap (some tid) with
    | some s =>
      rw [connectTo_existing_eq a tid ws d s h1 h2] at h ⊢
      obtain rfl : s.updateClient ws = s0 := by simpa using h
      exact ⟨by simp [h1], s.updateClient ws, mapGet_mapSet_self _ _ _, rfl⟩
    | none =>
      rw [connectTo_fresh_eq a tid ws d h1 h2] at h ⊢
      obtain rfl : (newSession a tid d).connectToUrl d.webSocketDebuggerUrl ws = s0 := by
        simpa using h
      exact ⟨by simp [h1], _, mapGet_mapSet_self _ _ _, rfl⟩

theorem sameSession_seq (tid : String) (n : Nat) :
    ∀ (wss : List Nat) (a : Adapter), SameSession a tid n →
      ∀ r ∈ (connectSeq a tid wss).2, ∃ s, r = some s ∧ s.serial = n := by
  intro wss
  induction wss with
  | nil =>
    intro a h r hr
    simp [connectSeq] at hr
  | cons ws rest ih =>
    intro a h r hr
    obtain ⟨hstep, s2, hs2, hser⟩ := sameSession_step a tid n ws h
    simp only [connectSeq, List.mem_cons] at hr
    rcases hr with hr | hr
    · exact ⟨s2, by rw [hr, hs2], hser⟩
    · exact ih (a.connectTo tid ws).1 hstep r hr

/-- C3: the binding table never holds a second session for an id.  The
conjuncts state: (no-record) `connectTo` without an endpoint record does
nothing; (rebind) with an existing session it rebinds that session's
client via `updateClient` and returns the very same session — same
identity, no new session created (`nextSerial` unchanged); (fresh) with a
record but no session it creates one session connected to the record's
real WebSocket URL and stores it; (multiplicity) the table keeps at most
one entry per id; (stability) every `connectTo` in any subsequent call
sequence for the id returns a session with the identity of the first. -/
theorem C3_at_most_one_binding (a : Adapter) (tid : String) (ws : Nat) :
    (mapGet a._targetIdToTargetDataMap (some tid) = none →
       a.connectTo tid ws = (a, none))
    ∧ (∀ d s, mapGet a._targetIdToTargetDataMap (some tid) = some d →
       mapGet a._targetMap (some tid) = some s →
       (a.connectTo tid ws).2 = some (s.updateClient ws)
       ∧ mapGet (a.connectTo tid ws).1._targetMap (some tid) = some (s.updateClient ws)
       ∧ (s.updateClient ws).serial = s.serial
       ∧ (a.connectTo tid ws).1.nextSerial = a.nextSerial)
    ∧ (∀ d, mapGet a._targetIdToTargetDataMap (some tid) = some d →
       mapGet a._targetMap (some tid) = none →
       (a.connectTo tid ws).2 = some ((newSession a tid d).connectToUrl d.webSocketDebuggerUrl ws)
       ∧ mapGet (a.connectTo tid ws).1._targetMap (some tid)
           = some ((newSession a tid d).connectToUrl d.webSocketDebuggerUrl ws)
       ∧ ((newSession a tid d).connectToUrl d.webSocketDebuggerUrl ws).realUrl = d.webSocketDebuggerUrl)
    ∧ (countKey a._targetMap (some tid) ≤ 1 →
       countKey (a.connectTo tid ws).1._targetMap (some tid) ≤ 1)
    ∧ (∀ (s0 : Target) (wss : List Nat), (a.connectTo tid ws).2 = some s0 →
       ∀ r ∈ (connectSeq (a.connectTo tid ws).1 tid wss).2,
         ∃ s, r = some s ∧ s.serial = s0.serial) := by
  refine ⟨fun h1 => connectTo_none a tid ws h1, ?_, ?_, ?_, ?_⟩
  · intro d s h1 h2
    rw [connectTo_existing_eq a tid ws d s h1 h2]
    exact ⟨rfl, mapGet_mapSet_self _ _ _, rfl, rfl⟩
  · intro d h1 h2
    rw [connectTo_fresh_eq a tid ws d h1 h2]
    exact ⟨rfl, mapGet_mapSet_self _ _ _, rfl⟩
  · intro hcount
    cases h1 : mapGet a._targetIdToTargetDataMap (some tid) with
    | none =>
      rw [connectTo_none a tid ws h1]
      exact hcount
    | some d =>
      cases h2 : mapGet a._targetMap (some tid) with
      | some s =>
        rw [connectTo_existing_eq a tid ws d s h1 h2]
        exact countKey_mapSet_le_one _ _ _ hcount
      | none =>
        rw [connectTo_fresh_eq a tid ws d h1 h2]
        exact countKey_mapSet_le_one _ _ _ hcount
  · intro s0 wss h
    exact sameSession_seq tid s0.serial wss (a.connectTo tid ws).1 (sameSession_init a tid ws s0 h)

theorem C3_witness :
    (emptyAdapter.connectTo "ghost" 3 = (emptyAdapter, none))
    ∧ ((boundAdapter.connectTo "page-1" 8).2 = some (boundSession.updateClient 8)
      ∧ mapGet (boundAdapter.connectTo "page-1" 8).1._targetMap (some "page-1")
          = some (boundSession.updateClient 8)
      ∧ (boundSession.updateClient 8).serial = boundSession.serial
      ∧ (boundAdapter.connectTo "page-1" 8).1.nextSerial = boundAdapter.nextSerial)
    ∧ ((discoveredAdapter.connectTo "page-1" 7).2
          = some ((newSession discoveredAdapter "page-1" storedRecord).connectToUrl storedRecord.webSocketDebuggerUrl 7)
      ∧ mapGet (discoveredAdapter.connectTo "page-1" 7).1._targetMap (some "page-1")
          = some ((newSession discoveredAdapter "page-1" storedRecord).connectToUrl storedRecord.webSocketDebuggerUrl 7)
      ∧ ((newSession discoveredAdapter "page-1" storedRecord).connectToUrl storedRecord.webSocketDebuggerUrl 7).realUrl
          = storedRecord.webSocketDebuggerUrl)
    ∧ countKey (discoveredAdapter.connectTo "page-1" 7).1._targetMap (some "page-1") ≤ 1
    ∧ (∃ s, some (boundSession.updateClient 8) = some s ∧ s.serial = boundSession.serial) :=
  ⟨(C3_at_most_one_binding emptyAdapter "ghost" 3).1 rfl,
   (C3_at_most_one_binding boundAdapter "page-1" 8).2.1 storedRecord boundSession (by decide) (by decide),
   (C3_at_most_one_binding discoveredAdapter "page-1" 7).2.2.1 storedRecord (by decide) (by decide),
   (C3_at_most_one_binding discoveredAdapter "page-1" 7).2.2.2.1 (by decide),
   (C3_at_most_one_binding discoveredAdapter "page-1" 7).2.2.2.2 boundSession [8, 9] (by decide)
     (some (boundSession.updateClient 8)) (by decide)⟩

end RemoteDebug
